import Mathlib

/-!
Shallow embedding of the Abah Farm backend (server.js): Mongoose record
types, the auth middlewares, the auth / order / newsletter routes and the
admin dashboard aggregation, with theorems checking the claims made by
the specification against them.

Mongo documents become Lean structures with a `Nat` id standing for the
ObjectId; collections become `List`s; each route handler becomes a pure
function from the request data (and the current collection contents) to a
response and, for writes, the updated collection.  External libraries
(bcryptjs, jsonwebtoken) are passed in as abstract function records, since
their code is not part of this repository.
-/

/-- A stored User document (userSchema): name, unique email, password hash,
isAdmin flag. -/
structure User where
  id : Nat
  name : String
  email : String
  password : String
  isAdmin : Bool
deriving Repr, DecidableEq

/-- One entry of the `products` array of an Order: a product reference and
a quantity. -/
structure LineItem where
  product : Nat
  quantity : Nat
deriving Repr, DecidableEq

/-- A stored Order document (orderSchema): owning user reference, line
items, caller-supplied total, and the two free-form status strings. -/
structure Order where
  id : Nat
  user : Nat
  products : List LineItem
  totalAmount : Int
  paymentStatus : String
  orderStatus : String
deriving Repr, DecidableEq

/-- A stored NewsletterSubscriber document (newsletterSubscriberSchema):
unique email and an active flag (soft delete). -/
structure Subscriber where
  id : Nat
  email : String
  active : Bool
deriving Repr, DecidableEq

/-- The public user view returned by register / login / me: id, name,
email, isAdmin — the schema of this record has no password field. -/
structure UserView where
  id : Nat
  name : String
  email : String
  isAdmin : Bool
deriving Repr, DecidableEq

/-- Abstract model of the bcryptjs calls the routes make:
`bcrypt.genSalt(rounds)`, `bcrypt.hash(raw, salt)` and
`bcrypt.compare(raw, storedHash)`. -/
structure Crypto where
  genSalt : Nat → String
  hash : String → String → String
  compare : String → String → Bool

/-- Abstract model of the jsonwebtoken calls: `jwt.sign(\x7b userId \x7d, secret)`
producing a token string, and `jwt.verify(token, secret)` which either
yields the encoded userId or throws (`none`). -/
structure Jwt where
  sign : Nat → String
  verify : String → Option Nat

/-- Outcome of the `auth` middleware: either it attaches a resolved User
and calls next(), or it responds with a status code and message. -/
inductive AuthResult
  | ok (u : User)
  | fail (status : Nat) (message : String)
deriving Repr, DecidableEq

/-- JS `String.prototype.replace` with a plain-string pattern replaces the
first occurrence only; modelled over the character list. -/
def replaceFirstAux (pat rep : List Char) : List Char → List Char
  | [] => []
  | c :: cs =>
    if List.isPrefixOf pat (c :: cs) then rep ++ (c :: cs).drop pat.length
    else c :: replaceFirstAux pat rep cs

/-- JS string replace of the first occurrence of pat by rep. -/
def replaceFirst (s pat rep : String) : String :=
  String.mk (replaceFirstAux pat.data rep.data s.data)

/-- The `auth` middleware: strip the `Bearer ` prefix from the
Authorization header, 401 if the token is absent or empty, 401 if
`jwt.verify` throws, 401 if the decoded userId matches no stored User,
otherwise attach the user. -/
def auth (jwtS : Jwt) (users : List User) (authHeader : Option String) : AuthResult :=
  match authHeader with
  | none => .fail 401 "Authentication required"
  | some h =>
    let token := replaceFirst h "Bearer " ""
    if token = "" then .fail 401 "Authentication required"
    else
      match jwtS.verify token with
      | none => .fail 401 "Authentication failed"
      | some uid =>
        match users.find? (fun u => u.id == uid) with
        | none => .fail 401 "User not found"
        | some u => .ok u

/-- Outcome of the `adminAuth` middleware. -/
inductive GateResult
  | next
  | fail (status : Nat) (message : String)
deriving Repr, DecidableEq

/-- The `adminAuth` middleware: `if (req.user && req.user.isAdmin) next()`
else respond 403.  `req.user` may be absent, hence the Option. -/
def adminAuth (reqUser : Option User) : GateResult :=
  match reqUser with
  | some u => if u.isAdmin then .next else .fail 403 "Admin access required"
  | none => .fail 403 "Admin access required"

/-- A successful register / login response body: the signed token and the
public user view. -/
structure AuthOk where
  token : String
  user : UserView
deriving Repr, DecidableEq

/-- The public view of a stored user, as built inline by the register and
login handlers. -/
def publicView (u : User) : UserView :=
  { id := u.id, name := u.name, email := u.email, isAdmin := u.isAdmin }

/-- POST /api/auth/login: find the user by email (400 Invalid credentials
if none), compare the password hash (400 Invalid credentials if it fails),
otherwise sign a token and return it with the public view. -/
def login (crypto : Crypto) (jwtS : Jwt) (users : List User)
    (email password : String) : Except (Nat × String) AuthOk :=
  match users.find? (fun u => u.email == email) with
  | none => .error (400, "Invalid credentials")
  | some u =>
    if crypto.compare password u.password then
      .ok { token := jwtS.sign u.id, user := publicView u }
    else
      .error (400, "Invalid credentials")

/-- POST /api/auth/register: 400 if a user with the email exists, otherwise
hash the password with a fresh salt, append the new user (isAdmin defaults
to false) and return a signed token with the public view.  Returns the
updated users collection together with the response. -/
def register (crypto : Crypto) (jwtS : Jwt) (users : List User) (freshId : Nat)
    (name email password : String) :
    List User × Except (Nat × String) AuthOk :=
  match users.find? (fun u => u.email == email) with
  | some _ => (users, .error (400, "User already exists"))
  | none =>
    let salt := crypto.genSalt 10
    let hashed := crypto.hash password salt
    let u : User :=
      { id := freshId, name := name, email := email, password := hashed, isAdmin := false }
    (users ++ [u],
     .ok { token := jwtS.sign freshId,
           user := { id := freshId, name := name, email := email, isAdmin := false } })

/-- The request body of POST /api/orders, as far as the Order schema reads
it: an optional `user` field (the handler overrides it), line items, total,
and optional status strings that default per the schema. -/
structure OrderBody where
  user : Option Nat
  products : List LineItem
  totalAmount : Int
  paymentStatus : Option String
  orderStatus : Option String
deriving Repr, DecidableEq

/-- POST /api/orders: build the Order from the body spread first and then
`user: req.user._id`, so the id of the authenticated requester overrides
any user field in the body; schema defaults fill the status strings. -/
def createOrder (requester : User) (freshId : Nat) (body : OrderBody) : Order :=
  { id := freshId
  , user := requester.id
  , products := body.products
  , totalAmount := body.totalAmount
  , paymentStatus := body.paymentStatus.getD "pending"
  , orderStatus := body.orderStatus.getD "processing" }

/-- Outcome of GET /api/orders/:id. -/
inductive GetOrderResult
  | notFound
  | forbidden
  | ok (o : Order)
deriving Repr, DecidableEq

/-- GET /api/orders/:id: findById (404 Order not found if none), then 403
Not authorized unless the requester is admin or the user reference of the
order equals the id of the requester, else return the order. -/
def getOrderById (orders : List Order) (requester : User) (oid : Nat) : GetOrderResult :=
  match orders.find? (fun o => o.id == oid) with
  | none => .notFound
  | some o =>
    if !requester.isAdmin && !(o.user == requester.id) then .forbidden
    else .ok o

/-- Outcome of POST /api/newsletter. -/
inductive SubscribeResult
  | alreadySubscribed
  | reactivated
  | subscribed
deriving Repr, DecidableEq

/-- POST /api/newsletter: if a subscriber with the email exists and is
active, 400 Email already subscribed; if it exists inactive, set its active
flag back to true and save it; otherwise append a new subscriber (active
defaults to true).  Returns the updated collection and the response. -/
def subscribeNewsletter (subs : List Subscriber) (freshId : Nat) (email : String) :
    List Subscriber × SubscribeResult :=
  match subs.find? (fun s => s.email == email) with
  | some s =>
    if s.active then (subs, .alreadySubscribed)
    else
      (subs.map (fun t => if t.email == email then { t with active := true } else t),
       .reactivated)
  | none => (subs ++ [{ id := freshId, email := email, active := true }], .subscribed)

/-- Outcome of POST /api/newsletter/unsubscribe. -/
inductive UnsubscribeResult
  | notFound
  | unsubscribed
deriving Repr, DecidableEq

/-- POST /api/newsletter/unsubscribe: findOne by email (404 Subscription
not found if none), otherwise set the active flag of the record to false and
save it — the record is never removed. -/
def unsubscribeNewsletter (subs : List Subscriber) (email : String) :
    List Subscriber × UnsubscribeResult :=
  match subs.find? (fun s => s.email == email) with
  | none => (subs, .notFound)
  | some _ =>
    (subs.map (fun t => if t.email == email then { t with active := false } else t),
     .unsubscribed)

/-- Dashboard revenue: `Order.find(\x7b paymentStatus: completed \x7d)` then
reduce `(sum, order) => sum + order.totalAmount` from 0. -/
def totalRevenue (orders : List Order) : Int :=
  ((orders.filter (fun o => o.paymentStatus == "completed")).map
    (fun o => o.totalAmount)).foldl (· + ·) 0

/-- The `$unwind` stage of the pipeline: one line item per element of the
products array of each order, across all orders regardless of status. -/
def unwindProducts (orders : List Order) : List LineItem :=
  orders.flatMap (fun o => o.products)

/-- Cumulative ordered quantity of one product over a list of line
items — the `$sum` quantity accumulator of the group stage. -/
def totalQty (items : List LineItem) (p : Nat) : Nat :=
  ((items.filter (fun it => it.product == p)).map (fun it => it.quantity)).sum

/-- The `$group` stage keyed on the product reference with a summed count:
one (product, summed quantity) pair per distinct product reference.  Mongo
leaves the output order of $group unspecified; this model fixes a
deterministic order via dedup of the key list. -/
def groupByProduct (items : List LineItem) : List (Nat × Nat) :=
  ((items.map (fun it => it.product)).dedup).map (fun p => (p, totalQty items p))

/-- The descending-count order of the `$sort: \x7b count: -1 \x7d` stage. -/
def countGE (a b : Nat × Nat) : Prop := b.2 ≤ a.2

instance : DecidableRel countGE := fun a b => inferInstanceAs (Decidable (b.2 ≤ a.2))

instance : IsTotal (Nat × Nat) countGE := ⟨fun a b => Nat.le_total b.2 a.2⟩

instance : IsTrans (Nat × Nat) countGE := ⟨fun _ _ _ h h2 => Nat.le_trans h2 h⟩

/-- The popularProducts aggregation pipeline of GET /api/admin/dashboard:
unwind the line items of every order, group by product summing quantities, sort
by count descending, limit 5. -/
def popularProducts (orders : List Order) : List (Nat × Nat) :=
  (List.insertionSort countGE (groupByProduct (unwindProducts orders))).take 5

/-! ### Concrete fixtures used by the witness theorems -/

/-- A stored non-admin user. -/
def alice : User :=
  { id := 1, name := "Alice", email := "alice@x.com", password := "h1", isAdmin := false }

/-- Another stored non-admin user. -/
def bob : User :=
  { id := 2, name := "Bob", email := "bob@x.com", password := "h2", isAdmin := false }

/-- An order owned by alice. -/
def order1 : Order :=
  { id := 10, user := 1, products := [⟨100, 2⟩], totalAmount := 30,
    paymentStatus := "completed", orderStatus := "processing" }

/-- A crypto model whose comparison always fails (for failed-login cases). -/
def cryptoNoMatch : Crypto :=
  { genSalt := fun r => "s" ++ toString r
  , hash := fun raw salt => salt ++ "$" ++ raw
  , compare := fun _ _ => false }

/-- A jwt model that accepts every token as user id 7. -/
def jwtConst : Jwt :=
  { sign := fun uid => "tok" ++ toString uid, verify := fun _ => some 7 }

/-- The popular-products example of the spec: line items (P1 qty 3), (P2 qty 5),
(P1 qty 2) spread over two orders. -/
def exOrders : List Order :=
  [ { id := 20, user := 1, products := [⟨1, 3⟩, ⟨2, 5⟩], totalAmount := 40,
      paymentStatus := "completed", orderStatus := "processing" }
  , { id := 21, user := 2, products := [⟨1, 2⟩], totalAmount := 10,
      paymentStatus := "pending", orderStatus := "processing" } ]

/-- An order whose payment is not completed. -/
def pendingOrder : Order :=
  { id := 22, user := 1, products := [], totalAmount := 99,
    paymentStatus := "pending", orderStatus := "processing" }

/-- An active newsletter subscriber. -/
def subActive : Subscriber := { id := 1, email := "a@x.com", active := true }

/-- An inactive (unsubscribed) newsletter subscriber. -/
def subInactive : Subscriber := { id := 2, email := "b@x.com", active := false }

/-! ### Helper lemmas -/

/-- Lookup with find? only depends on the pointwise behaviour of the
predicate. -/
theorem find?_congr_local {α : Type} {p q : α → Bool} (l : List α)
    (h : ∀ a, p a = q a) : l.find? p = l.find? q := by
  induction l with
  | nil => rfl
  | cons a l ih => simp [List.find?_cons, h a, ih]

/-- Updating the active flag of the records matching an email commutes with
looking the email up. -/
theorem find?_setActive (subs : List Subscriber) (email : String) (b : Bool) :
    (subs.map (fun t => if t.email == email then { t with active := b } else t)).find?
        (fun t => t.email == email)
      = (subs.find? (fun t => t.email == email)).map
          (fun t => if t.email == email then { t with active := b } else t) := by
  rw [List.find?_map]
  refine congrArg _ (find?_congr_local subs fun a => ?_)
  by_cases h : a.email = email <;> simp [h]

/-! ### Claim theorems -/

/-- C1: GET /api/orders/:id for an authenticated requester: NotFound when
no order matches the id; Forbidden when one matches but the requester is
neither the owner nor an admin; the matching order when the requester is
the owner or an admin. -/
theorem getOrderById_access (orders : List Order) (requester : User) (oid : Nat) :
    (orders.find? (fun o => o.id == oid) = none →
      getOrderById orders requester oid = .notFound) ∧
    (∀ o, orders.find? (fun o => o.id == oid) = some o →
      ((requester.isAdmin = false → o.user ≠ requester.id →
          getOrderById orders requester oid = .forbidden) ∧
       (o.user = requester.id ∨ requester.isAdmin = true →
          getOrderById orders requester oid = .ok o))) := by
  constructor
  · intro h
    simp [getOrderById, h]
  · intro o h
    constructor
    · intro ha hu
      simp [getOrderById, h, ha, hu]
    · intro hcase
      rcases hcase with hu | ha
      · simp [getOrderById, h, hu]
      · simp [getOrderById, h, ha]

/-- C1 witness: with one order owned by alice, an unknown id is NotFound,
bob (non-admin, non-owner) gets Forbidden, and alice gets the order. -/
theorem getOrderById_access_witness :
    getOrderById [order1] alice 99 = .notFound ∧
    getOrderById [order1] bob 10 = .forbidden ∧
    getOrderById [order1] alice 10 = .ok order1 :=
  ⟨(getOrderById_access [order1] alice 99).1 (by decide),
   ((getOrderById_access [order1] bob 10).2 order1 (by decide)).1 (by decide) (by decide),
   ((getOrderById_access [order1] alice 10).2 order1 (by decide)).2 (Or.inl (by decide))⟩

/-- C2: a login whose email matches no user and a login whose user is
found but whose hash comparison fails produce the identical
(400, Invalid credentials) error, so the response does not reveal which
check failed. -/
theorem login_uniform_failure (crypto : Crypto) (jwtS : Jwt) (users : List User)
    (e1 p1 e2 p2 : String) (u : User)
    (h1 : users.find? (fun v => v.email == e1) = none)
    (h2 : users.find? (fun v => v.email == e2) = some u)
    (h3 : crypto.compare p2 u.password = false) :
    login crypto jwtS users e1 p1 = .error (400, "Invalid credentials") ∧
    login crypto jwtS users e2 p2 = .error (400, "Invalid credentials") ∧
    login crypto jwtS users e1 p1 = login crypto jwtS users e2 p2 := by
  refine ⟨?_, ?_, ?_⟩ <;> simp [login, h1, h2, h3]

/-- C2 witness: unknown email and wrong password against a concrete store
produce the same error object. -/
theorem login_uniform_failure_witness :
    login cryptoNoMatch jwtConst [alice] "nobody@x.com" "pw" =
      .error (400, "Invalid credentials") ∧
    login cryptoNoMatch jwtConst [alice] "alice@x.com" "wrong" =
      .error (400, "Invalid credentials") ∧
    login cryptoNoMatch jwtConst [alice] "nobody@x.com" "pw" =
      login cryptoNoMatch jwtConst [alice] "alice@x.com" "wrong" :=
  login_uniform_failure cryptoNoMatch jwtConst [alice] "nobody@x.com" "pw"
    "alice@x.com" "wrong" alice (by decide) (by decide) (by decide)

/-- C3: a request whose bearer token verifies to a user id that matches no
stored User fails with a 401 response (User not found); the middleware
returns a response rather than crashing. -/
theorem auth_deleted_user (jwtS : Jwt) (users : List User) (h : String) (uid : Nat)
    (hne : replaceFirst h "Bearer " "" ≠ "")
    (hv : jwtS.verify (replaceFirst h "Bearer " "") = some uid)
    (hu : users.find? (fun u => u.id == uid) = none) :
    auth jwtS users (some h) = .fail 401 "User not found" := by
  simp [auth, hne, hv, hu]

/-- C3 witness: a jwt model that verifies every token to user id 7, a
store holding only users 1 and 2, and a Bearer header. -/
theorem auth_deleted_user_witness :
    auth jwtConst [alice, bob] (some "Bearer t") = .fail 401 "User not found" :=
  auth_deleted_user jwtConst [alice, bob] "Bearer t" 7 (by decide) (by decide) (by decide)

/-- C5: the order stored by POST /api/orders is owned by the authenticated
requester, whatever user reference the request body carries. -/
theorem createOrder_owner (requester : User) (freshId : Nat) (body : OrderBody) :
    (createOrder requester freshId body).user = requester.id := rfl

/-- C9: the adminAuth gate with no resolved user on the request context
responds 403 (Admin access required) instead of dereferencing the missing
user. -/
theorem adminAuth_no_user : adminAuth none = .fail 403 "Admin access required" := rfl

/-- C4: registering with an existing email fails with 400 (User already
exists) and leaves the collection unchanged; with a fresh email the stored
password field of the stored user is the salted hash of the raw password and the
response is a signed token plus the public view (id, name, email, isAdmin
only — the view record has no password field). -/
theorem register_spec (crypto : Crypto) (jwtS : Jwt) (users : List User)
    (freshId : Nat) (nm em pw : String) :
    (∀ u, users.find? (fun v => v.email == em) = some u →
      register crypto jwtS users freshId nm em pw =
        (users, .error (400, "User already exists"))) ∧
    (users.find? (fun v => v.email == em) = none →
      register crypto jwtS users freshId nm em pw =
        (users ++ [{ id := freshId, name := nm, email := em,
                     password := crypto.hash pw (crypto.genSalt 10), isAdmin := false }],
         .ok { token := jwtS.sign freshId,
               user := { id := freshId, name := nm, email := em, isAdmin := false } })) := by
  constructor
  · intro u h
    simp [register, h]
  · intro h
    simp [register, h]

/-- C4 witness: re-registering the email of alice fails and leaves the store
unchanged; a fresh email appends the hashed-password user and returns the
token with the password-free view. -/
theorem register_spec_witness :
    register cryptoNoMatch jwtConst [alice] 5 "Eve" "alice@x.com" "pw" =
      ([alice], .error (400, "User already exists")) ∧
    register cryptoNoMatch jwtConst [alice] 5 "Eve" "eve@x.com" "pw" =
      ([alice, { id := 5, name := "Eve", email := "eve@x.com",
                 password := cryptoNoMatch.hash "pw" (cryptoNoMatch.genSalt 10),
                 isAdmin := false }],
       .ok { token := jwtConst.sign 5,
             user := { id := 5, name := "Eve", email := "eve@x.com", isAdmin := false } }) :=
  ⟨(register_spec cryptoNoMatch jwtConst [alice] 5 "Eve" "alice@x.com" "pw").1
      alice (by decide),
   (register_spec cryptoNoMatch jwtConst [alice] 5 "Eve" "eve@x.com" "pw").2 (by decide)⟩

/-- C6: the dashboard revenue total is the sum of totalAmount over exactly
the orders whose paymentStatus is "completed"; appending an order with any
other status leaves the total unchanged, and appending a completed order
adds its totalAmount. -/
theorem totalRevenue_spec (orders : List Order) :
    totalRevenue orders =
      ((orders.filter (fun o => o.paymentStatus == "completed")).map
        (fun o => o.totalAmount)).sum ∧
    (∀ o, o.paymentStatus ≠ "completed" →
      totalRevenue (orders ++ [o]) = totalRevenue orders) ∧
    (∀ o, o.paymentStatus = "completed" →
      totalRevenue (orders ++ [o]) = totalRevenue orders + o.totalAmount) := by
  refine ⟨by simp [totalRevenue, List.sum_eq_foldl], ?_, ?_⟩
  · intro o h
    simp [totalRevenue, List.filter_append, h]
  · intro o h
    simp [totalRevenue, List.filter_append, h, List.foldl_append]

/-- C6 witness: appending a pending order leaves the example revenue
unchanged; appending a completed copy adds its amount. -/
theorem totalRevenue_spec_witness :
    totalRevenue (exOrders ++ [pendingOrder]) = totalRevenue exOrders ∧
    totalRevenue (exOrders ++ [order1]) = totalRevenue exOrders + order1.totalAmount :=
  ⟨(totalRevenue_spec exOrders).2.1 pendingOrder (by decide),
   (totalRevenue_spec exOrders).2.2 order1 (by decide)⟩

/-- C7: the popular-products pipeline returns at most five entries, ranked
in descending order of count, and the count of each entry is the cumulative
ordered quantity of that product over every line item of every order,
irrespective of payment or order status; the pipeline is a pure function,
so identical input yields the identical ranking. -/
theorem popularProducts_spec (orders : List Order) :
    (popularProducts orders).length ≤ 5 ∧
    List.Sorted countGE (popularProducts orders) ∧
    ∀ pc ∈ popularProducts orders, pc.2 = totalQty (unwindProducts orders) pc.1 := by
  refine ⟨?_, ?_, ?_⟩
  · rw [popularProducts, List.length_take]
    exact Nat.min_le_left _ _
  · exact List.Pairwise.sublist (List.take_sublist 5 _)
      (List.sorted_insertionSort countGE _)
  · intro pc hpc
    have h1 : pc ∈ List.insertionSort countGE (groupByProduct (unwindProducts orders)) :=
      List.mem_of_mem_take hpc
    have h2 : pc ∈ groupByProduct (unwindProducts orders) :=
      (List.perm_insertionSort countGE _).subset h1
    simp only [groupByProduct, List.mem_map] at h2
    obtain ⟨p, _, hp⟩ := h2
    rw [← hp]

/-- C7 witness: on the example of the spec (P1 qty 3, P2 qty 5, P1 qty 2) the
pipeline lists product 2 with count 5, which equals its cumulative
quantity. -/
theorem popularProducts_spec_witness :
    ((2, 5) : Nat × Nat).2 = totalQty (unwindProducts exOrders) ((2, 5) : Nat × Nat).1 :=
  (popularProducts_spec exOrders).2.2 (2, 5) (by decide)

/-- C8: subscribing an email with an existing active record fails with
AlreadySubscribed and changes nothing; subscribing with an existing
inactive record reactivates that same record (count unchanged, the record
found under the email is the old one with active set true); subscribing a
fresh email appends one active record; unsubscribing an email with no
record fails with NotFound. -/
theorem newsletter_spec (subs : List Subscriber) (freshId : Nat) (email : String) :
    (∀ s, subs.find? (fun t => t.email == email) = some s → s.active = true →
      subscribeNewsletter subs freshId email = (subs, .alreadySubscribed)) ∧
    (∀ s, subs.find? (fun t => t.email == email) = some s → s.active = false →
      (subscribeNewsletter subs freshId email).2 = .reactivated ∧
      (subscribeNewsletter subs freshId email).1.length = subs.length ∧
      (subscribeNewsletter subs freshId email).1.find? (fun t => t.email == email)
        = some { s with active := true }) ∧
    (subs.find? (fun t => t.email == email) = none →
      subscribeNewsletter subs freshId email =
        (subs ++ [{ id := freshId, email := email, active := true }], .subscribed)) ∧
    (subs.find? (fun t => t.email == email) = none →
      unsubscribeNewsletter subs email = (subs, .notFound)) := by
  refine ⟨?_, ?_, ?_, ?_⟩
  · intro s h ha
    simp [subscribeNewsletter, h, ha]
  · intro s h ha
    have hmail : s.email = email := by simpa using List.find?_some h
    have hstep : subscribeNewsletter subs freshId email =
        (subs.map (fun t => if t.email == email then { t with active := true } else t),
         .reactivated) := by
      simp [subscribeNewsletter, h, ha]
    rw [hstep]
    refine ⟨rfl, by simp, ?_⟩
    rw [find?_setActive, h]
    simp [hmail]
  · intro h
    simp [subscribeNewsletter, h]
  · intro h
    simp [unsubscribeNewsletter, h]

/-- C8 witness: concrete active and inactive records and a fresh email
exercise all four cases. -/
theorem newsletter_spec_witness :
    subscribeNewsletter [subActive, subInactive] 3 "a@x.com" =
      ([subActive, subInactive], .alreadySubscribed) ∧
    ((subscribeNewsletter [subActive, subInactive] 3 "b@x.com").2 = .reactivated ∧
      (subscribeNewsletter [subActive, subInactive] 3 "b@x.com").1.length = 2 ∧
      (subscribeNewsletter [subActive, subInactive] 3 "b@x.com").1.find?
          (fun t => t.email == "b@x.com") = some { subInactive with active := true }) ∧
    subscribeNewsletter [subActive, subInactive] 3 "c@x.com" =
      ([subActive, subInactive, { id := 3, email := "c@x.com", active := true }],
       .subscribed) ∧
    unsubscribeNewsletter [subActive, subInactive] "c@x.com" =
      ([subActive, subInactive], .notFound) :=
  ⟨(newsletter_spec [subActive, subInactive] 3 "a@x.com").1 subActive
      (by decide) (by decide),
   (newsletter_spec [subActive, subInactive] 3 "b@x.com").2.1 subInactive
      (by decide) (by decide),
   (newsletter_spec [subActive, subInactive] 3 "c@x.com").2.2.1 (by decide),
   (newsletter_spec [subActive, subInactive] 3 "c@x.com").2.2.2 (by decide)⟩

/-- C10: unsubscribing an email that has a subscriber record succeeds, and
an immediate second unsubscribe also succeeds (the record is soft-deleted,
not removed) and returns the collection unchanged from the first call. -/
theorem unsubscribe_idempotent (subs : List Subscriber) (email : String) (s : Subscriber)
    (h : subs.find? (fun t => t.email == email) = some s) :
    (unsubscribeNewsletter subs email).2 = .unsubscribed ∧
    unsubscribeNewsletter (unsubscribeNewsletter subs email).1 email =
      ((unsubscribeNewsletter subs email).1, .unsubscribed) := by
  have hmail : s.email = email := by simpa using List.find?_some h
  have hstep : unsubscribeNewsletter subs email =
      (subs.map (fun t => if t.email == email then { t with active := false } else t),
       .unsubscribed) := by
    simp [unsubscribeNewsletter, h]
  rw [hstep]
  refine ⟨rfl, ?_⟩
  have hfind2 : (subs.map
        (fun t => if t.email == email then { t with active := false } else t)).find?
        (fun t => t.email == email) = some { s with active := false } := by
    rw [find?_setActive, h]
    simp [hmail]
  have hmapmap :
      (subs.map (fun t => if t.email == email then { t with active := false } else t)).map
          (fun t => if t.email == email then { t with active := false } else t)
        = subs.map (fun t => if t.email == email then { t with active := false } else t) := by
    rw [List.map_map]
    refine List.map_congr_left fun a _ => ?_
    by_cases ha : a.email = email <;> simp [ha]
  simp only [unsubscribeNewsletter, hfind2]
  rw [hmapmap]

/-- C10 witness: unsubscribing an active record twice — both calls succeed
and the second leaves the collection exactly as the first did. -/
theorem unsubscribe_idempotent_witness :
    (unsubscribeNewsletter [subActive] "a@x.com").2 = .unsubscribed ∧
    unsubscribeNewsletter (unsubscribeNewsletter [subActive] "a@x.com").1 "a@x.com" =
      ((unsubscribeNewsletter [subActive] "a@x.com").1, .unsubscribed) :=
  unsubscribe_idempotent [subActive] "a@x.com" subActive (by decide)
